import Mathlib

/-!
Shallow embedding of the jarvis voice assistant (Main.py, Ai_agent_module.py).

Python strings are modelled as Lean `String`; every Python string operation
used by the program is re-implemented by structural recursion on `String.data`
(`List Char`) so that all definitions compute by kernel reduction:

* `s.lower()`               -> `pyLower`
* `s.strip()`               -> `pyStrip`
* `sub in s`                -> `strContains s sub` (substring containment;
                               the empty string is contained in every string,
                               as in Python)
* `s.startswith(p)`         -> `pyStartsWith`
* `s.endswith(p)`           -> `pyEndsWith`
* `s.replace(old, new)`     -> `pyReplace` (all non-overlapping occurrences,
                               leftmost first, as in Python)
* `s.split()`               -> `pyWords` (split on whitespace runs,
                               discarding empty pieces)

External collaborators (browser, TTS engine, news HTTP endpoint, AI endpoint,
wall clock, sleeping) are modelled as emitted effects (`Eff`) or as explicit
outcome parameters, so the decision logic of the program is a pure function
of its textual input and the collaborator outcomes.
-/

namespace Jarvis

/-! ### Python string primitives -/

/-- Python `sub in s`: `sub` occurs contiguously inside `s`.
Note `strContains s "" = true` for every `s`, exactly as in Python. -/
def strContains (s pat : String) : Bool := decide (pat.data <:+: s.data)

/-- Python `s.lower()` (ASCII case folding, which covers every string the
program manipulates). -/
def pyLower (s : String) : String := String.mk (s.data.map Char.toLower)

/-- Python `s.strip()`: remove leading and trailing whitespace. -/
def pyStrip (s : String) : String :=
  String.mk (((s.data.dropWhile Char.isWhitespace).reverse.dropWhile Char.isWhitespace).reverse)

/-- Python `s.startswith(pre)`. -/
def pyStartsWith (s pre : String) : Bool := pre.data.isPrefixOf s.data

/-- Python `s.endswith(post)`. -/
def pyEndsWith (s post : String) : Bool := post.data.isSuffixOf s.data

/-- Fuel-driven worker for `pyReplace`: replaces every non-overlapping
occurrence of `pat` (leftmost first) by `rep`.  The fuel is the length of the
scanned list, which bounds the recursion depth when `pat` is nonempty. -/
def replFuel : Nat → List Char → List Char → List Char → List Char
  | 0, l, _, _ => l
  | _ + 1, [], _, _ => []
  | fuel + 1, c :: rest, pat, rep =>
    if pat.isPrefixOf (c :: rest) then
      rep ++ replFuel fuel ((c :: rest).drop pat.length) pat rep
    else
      c :: replFuel fuel rest pat rep

/-- Python `s.replace(pat, rep)`; replaces all occurrences.  A Python replace
with an empty pattern never occurs in this program, so that case keeps `s`. -/
def pyReplace (s pat rep : String) : String :=
  if pat.data.isEmpty then s
  else String.mk (replFuel s.data.length s.data pat.data rep.data)

/-- Worker for `pyWords`; `acc` is the current in-progress word, reversed. -/
def pyWordsAux : List Char → List Char → List String
  | [], acc => if acc.isEmpty then [] else [String.mk acc.reverse]
  | c :: t, acc =>
    if c.isWhitespace then
      if acc.isEmpty then pyWordsAux t [] else String.mk acc.reverse :: pyWordsAux t []
    else pyWordsAux t (c :: acc)

/-- Python `s.split()` with no separator: the whitespace-delimited words of
`s`, with no empty pieces. -/
def pyWords (s : String) : List String := pyWordsAux s.data []

/-- `command.lower().strip()`, the normalization applied by
`process_command` (Main.py line 225) and `find_song` (line 164). -/
def normalize (command : String) : String := pyStrip (pyLower command)

/-! ### Observable effects

Calls the program makes on its external collaborators, in program order.
`tellTime`/`tellDate` stand for speaking the formatted current time or date
(Main.py lines 286-294; the wall clock is external).  `getNews c` stands for
the call `self.get_news(c)` (its internal speech is modelled separately by
`get_news` below).  `askAI q` stands for `self.ai_process(q)` followed by
speaking its returned text (Main.py lines 304-305). -/
inductive Eff
  | speak (text : String)
  | openUrl (url : String)
  | getNews (category : String)
  | askAI (query : String)
  | tellTime
  | tellDate
  | sleepMs (ms : Nat)
deriving DecidableEq

/-! ### Music library (Main.py `_setup_music_library`, lines 89-109) -/

/-- `self.music_library`: canonical song name -> playback URL, in insertion
order (Python dicts iterate in insertion order). -/
def musicLibrary : List (String × String) := [
  ("skyfall", "https://open.spotify.com/track/6VObnIkLVruX4UVyxWhlqm"),
  ("levitating", "https://open.spotify.com/track/39LLxExYz6ewLAcYrzQQyP"),
  ("sugar", "https://open.spotify.com/track/2iuZJX9X9P0GKaE93xcPjk"),
  ("despacito", "https://open.spotify.com/track/6habFhsOp2NvshLv26DqMb"),
  ("faded", "https://open.spotify.com/track/7BKLCZ1jbUBVqRi2FVlTVw"),
  ("dusk till dawn", "https://open.spotify.com/track/3e7sxremeOE3wTySiOhGiP"),
  ("shape of you", "https://open.spotify.com/track/7qiZfU4dY1lWllzX7mPBI3"),
  ("perfect", "https://open.spotify.com/track/0tgVpDi06FyKpA1z0VMD4v"),
  ("believer", "https://open.spotify.com/track/0pqnGHJpmpxLKifKRmU6WP"),
  ("blinding lights", "https://open.spotify.com/track/0VjIjW4GlUZAMYd2vXMi3b")]

/-- `self.song_aliases`, in insertion order. -/
def songAliases : List (String × List String) := [
  ("dusk till dawn", ["dusk till dawn", "dusk to dawn", "dusk until dawn"]),
  ("shape of you", ["shape of you", "shape of u"]),
  ("blinding lights", ["blinding lights", "blinding light"])]

/-- `VoiceAssistant.find_song` (Main.py lines 162-180): normalize the query,
then try a direct dictionary hit, then the alias lists, then the bidirectional
partial match (`song_query in song_name or song_name in song_query`) over the
library in iteration order. -/
def find_song (song_query : String) : Option String :=
  let q := normalize song_query
  match musicLibrary.find? (fun e => e.1 == q) with
  | some e => some e.2
  | none =>
    match songAliases.find? (fun a => a.2.contains q) with
    | some a => (musicLibrary.find? (fun e => e.1 == a.1)).map (fun e => e.2)
    | none =>
      match musicLibrary.find? (fun e => strContains e.1 q || strContains q e.1) with
      | some e => some e.2
      | none => none

/-! ### Command processing (Main.py `process_command`, lines 223-307) -/

/-- `website_commands` (Main.py lines 233-241): trigger phrase ->
(url, spoken confirmation), in insertion order. -/
def websiteCommands : List (String × String × String) := [
  ("open google", "https://google.com", "Opening Google"),
  ("open youtube", "https://youtube.com", "Opening YouTube"),
  ("open instagram", "https://instagram.com", "Opening Instagram"),
  ("open linkedin", "https://linkedin.com", "Opening LinkedIn"),
  ("open facebook", "https://facebook.com", "Opening Facebook"),
  ("open twitter", "https://twitter.com", "Opening Twitter"),
  ("open reddit", "https://reddit.com", "Opening Reddit")]

/-- `exit_commands` (Main.py line 297). -/
def exit_commands : List String := ["goodbye", "stop", "quit", "exit", "bye"]

/-- The song query computed by the "play" branch (Main.py line 251):
`command.replace("play", "").strip()` — note this removes EVERY occurrence
of `"play"` in the command, not only the leading token. -/
def song_query_of (command : String) : String := pyStrip (pyReplace command "play" "")

/-- `VoiceAssistant.process_command` (Main.py lines 223-307), returning the
effects performed in order and the returned flow string
(`"continue"` or `"quit"`). -/
def process_command (command : String) : List Eff × String :=
  let command := normalize command
  if command = "" then ([], "continue")
  else
    match websiteCommands.find? (fun t => strContains command t.1) with
    | some t => ([Eff.speak t.2.2, Eff.openUrl t.2.1], "continue")
    | none =>
      if pyStartsWith command "play" then
        let song_query := song_query_of command
        if song_query = "" then ([Eff.speak "Please specify a song to play."], "continue")
        else
          match find_song song_query with
          | some song_url =>
            ([Eff.speak ("Playing " ++ song_query), Eff.openUrl song_url], "continue")
          | none =>
            ([Eff.speak ("Sorry, I couldn\x27t find " ++ song_query ++ " in my music library."),
              Eff.speak "Let me search for it on YouTube instead.",
              Eff.openUrl ("https://www.youtube.com/results?search_query=" ++
                pyReplace song_query " " "+")], "continue")
      else if strContains command "news" then
        (if strContains command "technology" || strContains command "tech" then
          [Eff.getNews "technology"]
        else if strContains command "sports" then [Eff.getNews "sports"]
        else if strContains command "business" then [Eff.getNews "business"]
        else if strContains command "entertainment" then [Eff.getNews "entertainment"]
        else [Eff.getNews "general"], "continue")
      else if strContains command "time" then ([Eff.tellTime], "continue")
      else if strContains command "date" then ([Eff.tellDate], "continue")
      else if exit_commands.any (fun e => strContains command e) then
        ([Eff.speak "Goodbye! Have a great day!"], "quit")
      else
        ([Eff.speak "Let me think about that...", Eff.askAI command], "continue")

/-! ### News handler (Main.py `get_news`, lines 182-221) -/

/-- Outcome of the HTTP request made by `get_news`: a successful response
carrying the article titles (`article.get('title')`, possibly absent), or one
of the three caught exception classes. -/
inductive NewsOutcome
  | ok (articles : List (Option String))
  | timeout
  | requestError
  | otherError
deriving DecidableEq

/-- `VoiceAssistant.get_news` (Main.py lines 182-221), parameterized by
whether `NEWS_API_KEY` is configured and by the request outcome; returns the
effects performed in order and the boolean result. -/
def get_news (keyConfigured : Bool) (_category : String) (outcome : NewsOutcome) :
    List Eff × Bool :=
  if !keyConfigured then ([Eff.speak "News service is not configured."], false)
  else
    match outcome with
    | NewsOutcome.ok articles =>
      if articles.isEmpty then
        ([Eff.speak "No news articles found at the moment."], false)
      else
        ([Eff.speak ("Here are the top " ++ toString (min 3 articles.length) ++ " headlines:")] ++
          ((articles.take 3).enum.map (fun p =>
            [Eff.speak ("News " ++ toString (p.1 + 1) ++ ": " ++ p.2.getD "No title available"),
             Eff.sleepMs 500])).flatten, true)
    | NewsOutcome.timeout => ([Eff.speak "News service is taking too long to respond."], false)
    | NewsOutcome.requestError =>
      ([Eff.speak "I\x27m having trouble connecting to the news service."], false)
    | NewsOutcome.otherError => ([Eff.speak "An error occurred while fetching news."], false)

/-! ### AI response post-processing -/

/-- The response cleanup performed by `VoiceAssistant.ai_process`
(Main.py line 153): `response.text.replace("*", "").strip()` — asterisks are
removed and the ends are trimmed, nothing else. -/
def ai_clean (text : String) : String := pyStrip (pyReplace text "*" "")

/-- `VoiceAssistant.ai_process` (Main.py lines 133-160), parameterized by
client availability and the adapter call outcome (`none` models a raised
exception). -/
def ai_process (clientAvailable : Bool) (adapterResult : Option String) : String :=
  if !clientAvailable then "AI functionality is not available. Please check your API key."
  else
    match adapterResult with
    | some text => ai_clean text
    | none => "I\x27m having trouble processing that request right now."

/-- The backquote character removed by `AIClient._clean_response`. -/
def backquote : String := (Char.ofNat 96).toString

/-- `AIClient._clean_response` (Ai_agent_module.py lines 71-86): strip
markdown markers, collapse whitespace runs, and ensure terminal punctuation. -/
def clean_response (text : String) : String :=
  if text = "" then "I\x27m sorry, I couldn\x27t generate a response."
  else
    let cleaned := pyReplace (pyReplace (pyReplace text "*" "") "#" "") backquote ""
    let collapsed := " ".intercalate (pyWords cleaned)
    let punctuated :=
      if !(collapsed = "") &&
          !(pyEndsWith collapsed "." || pyEndsWith collapsed "!" || pyEndsWith collapsed "?") then
        collapsed ++ "."
      else collapsed
    pyStrip punctuated

/-! ### Dialogue loop (Main.py `run`, lines 339-386) -/

/-- One iteration's input: a successful recognition (`listen_for_command`
returned text, already lowercased), a failed listen (`None`), or an
unexpected exception caught by the loop's generic `except` handler.  Since
`listen_for_command` (Main.py lines 309-337) catches every exception of its
own and returns `None` instead, an exception reaching the loop-level handler
is necessarily raised by the turn processing AFTER the successful-recognition
reset of line 360 has run. -/
inductive ListenResult
  | heard (command : String)
  | failed
  | raised
deriving DecidableEq

/-- The loop-carried mutable state of `run`. -/
structure RunState where
  should_quit : Bool
  consecutive_errors : Nat
deriving DecidableEq

/-- `max_consecutive_errors` (Main.py line 345). -/
def max_consecutive_errors : Nat := 5

/-- `actual_command` (Main.py line 364):
`command.replace("jarvis", "").strip()` — note this removes EVERY occurrence
of `"jarvis"`, not only the leading wake token. -/
def actual_command (command : String) : String := pyStrip (pyReplace command "jarvis" "")

/-- One iteration of the `while` loop in `run` (Main.py lines 348-386):
given the loop state and the iteration's input, the new state and the effects
performed. -/
def run_step (st : RunState) (r : ListenResult) : RunState × List Eff :=
  match r with
  | ListenResult.failed =>
    let n := st.consecutive_errors + 1
    if n ≥ max_consecutive_errors then
      (⟨st.should_quit, 0⟩,
       [Eff.speak "I\x27m having trouble hearing you. Please check your microphone.",
        Eff.sleepMs 2000])
    else (⟨st.should_quit, n⟩, [])
  | ListenResult.raised =>
    -- An exception caught at line 380 is raised after line 360 already reset
    -- the counter to 0 (`listen_for_command` swallows all of its own
    -- exceptions), so the handler's increment always starts from 0.  The
    -- partial turn's own effects before the exception are elided.
    let n := 0 + 1
    if n ≥ max_consecutive_errors then
      (⟨st.should_quit, 0⟩,
       [Eff.speak "I\x27m experiencing technical difficulties. Restarting...",
        Eff.sleepMs 3000])
    else (⟨st.should_quit, n⟩, [])
  | ListenResult.heard command =>
    if pyStartsWith command "jarvis" then
      if actual_command command ≠ "" then
        let pr := process_command (actual_command command)
        if pr.2 = "quit" then (⟨true, 0⟩, pr.1) else (⟨st.should_quit, 0⟩, pr.1)
      else (⟨st.should_quit, 0⟩, [Eff.speak "Yes, how can I help you?"])
    else (⟨st.should_quit, 0⟩, [])

/-- Iterate `run_step` over a list of iteration inputs, stopping (as the
`while not self.should_quit` loop does) once `should_quit` is set. -/
def run_steps (st : RunState) (rs : List ListenResult) : RunState × List Eff :=
  match rs with
  | [] => (st, [])
  | r :: rest =>
    if st.should_quit then (st, [])
    else
      let s1 := run_step st r
      let s2 := run_steps s1.1 rest
      (s2.1, s1.2 ++ s2.2)

/-! ### Spec-side definitions used only to state refinement comparisons -/

/-- The song query as the specification words it, for claim comparison: the
command with the LEADING `"play"` token stripped, then trimmed. -/
def spec_play_remainder (command : String) : String :=
  pyStrip (String.mk (command.data.drop 4))

/-- The dispatched command as the specification words it, for claim
comparison: the text with the LEADING `"jarvis"` wake token stripped, then
trimmed. -/
def spec_wake_remainder (text : String) : String :=
  pyStrip (String.mk (text.data.drop 6))

/-! ### General helper lemmas -/

/-- Two strings with the same character data are equal. -/
theorem string_data_inj {s t : String} (h : s.data = t.data) : s = t := by
  cases s; cases t; exact congrArg String.mk h

/-- `strContains` decides substring containment on the character data. -/
theorem strContains_iff {s pat : String} : strContains s pat = true ↔ pat.data <:+: s.data :=
  ⟨of_decide_eq_true, decide_eq_true⟩

/-- `List.find?` only depends on the predicate's values on the list. -/
theorem find?_congr_on {α : Type} (p q : α → Bool) :
    ∀ l : List α, (∀ e ∈ l, p e = q e) → l.find? p = l.find? q
  | [], _ => rfl
  | a :: t, h => by
    simp only [List.find?]
    rw [h a (List.mem_cons_self a t)]
    cases hq : q a
    · exact find?_congr_on p q t (fun e he => h e (List.mem_cons_of_mem a he))
    · rfl

/-- When filtering a list leaves exactly one element, `find?` returns it. -/
theorem find?_of_filter_eq_singleton {α : Type} (p : α → Bool) :
    ∀ (l : List α) (x : α), l.filter p = [x] → l.find? p = some x
  | [], x, h => by simp at h
  | a :: t, x, h => by
    cases hp : p a
    · rw [List.filter_cons_of_neg (by simp [hp])] at h
      rw [List.find?_cons_of_neg _ (by simp [hp])]
      exact find?_of_filter_eq_singleton p t x h
    · rw [List.filter_cons_of_pos (by simp [hp])] at h
      rw [List.find?_cons_of_pos _ hp]
      exact congrArg some (List.cons.inj h).1

/-- No canonical song name of the library is a substring of a different
canonical song name (checked over all pairs of `musicLibrary` entries). -/
theorem canonPairwise :
    ∀ e1 ∈ musicLibrary, ∀ e2 ∈ musicLibrary,
      e1.1.data <:+: e2.1.data → e1.1 = e2.1 := by decide

/-! ### Claim C1 — `find_song` on the empty string and on non-matching
strings -/

/-- Claim C1, counterexample: `find_song` applied to the empty string does
NOT return `none`; since the empty string is a Python substring of every
canonical name, the partial-match loop fires on the first library entry and
returns skyfall's URL. -/
theorem find_song_empty_counterexample :
    find_song "" = some "https://open.spotify.com/track/6VObnIkLVruX4UVyxWhlqm" ∧
    find_song "" ≠ none := by decide

/-- Claim C1, amended: for any query whose normalization matches no library
entry exactly, by alias, or by substring in either direction — which excludes
the empty string, a bidirectional substring match of every entry —
`find_song` returns `none` (and, being a total function, never raises). -/
theorem find_song_no_match (q : String)
    (hexact : ∀ e ∈ musicLibrary, e.1 ≠ normalize q)
    (halias : ∀ a ∈ songAliases, normalize q ∉ a.2)
    (hsub : ∀ e ∈ musicLibrary, strContains e.1 (normalize q) = false ∧
            strContains (normalize q) e.1 = false) :
    find_song q = none := by
  have hfind1 : musicLibrary.find? (fun e => e.1 == normalize q) = none := by
    rw [List.find?_eq_none]; intro e he; simpa using hexact e he
  have hfind2 : songAliases.find? (fun a => a.2.contains (normalize q)) = none := by
    rw [List.find?_eq_none]; intro a ha; simpa using halias a ha
  have hfind3 : musicLibrary.find?
      (fun e => strContains e.1 (normalize q) || strContains (normalize q) e.1) = none := by
    rw [List.find?_eq_none]; intro e he
    simp [(hsub e he).1, (hsub e he).2]
  unfold find_song
  simp only [hfind1, hfind2, hfind3]

/-- Claim C1, witness: the query `"xyzzy"` matches nothing and resolves to
`none`. -/
theorem find_song_no_match_witness : find_song "xyzzy" = none :=
  find_song_no_match "xyzzy" (by decide) (by decide) (by decide)

/-! ### Claim C2 — the "play" branch of `process_command` -/

/-- Claim C2, counterexample: for the command `"play playground"` (which
starts with the token `"play"` and matches no website trigger) the song query
actually used is `"ground"` — every occurrence of `"play"` is removed — not
the spec's leading-token remainder `"playground"`; the effects show the
search ran on `"ground"`. -/
theorem play_strip_counterexample :
    song_query_of (normalize "play playground") = "ground" ∧
    spec_play_remainder (normalize "play playground") = "playground" ∧
    ("ground" : String) ≠ "playground" ∧
    (process_command "play playground").1 =
      [Eff.speak "Sorry, I couldn\x27t find ground in my music library.",
       Eff.speak "Let me search for it on YouTube instead.",
       Eff.openUrl "https://www.youtube.com/results?search_query=ground"] := by decide

/-- Claim C2, amended: for every command that (normalized) starts with
`"play"` and matches no website trigger, the song query equals the command
with ALL occurrences of `"play"` removed and then trimmed
(`song_query_of`); when that remainder is empty, only the clarifying reply
"Please specify a song to play." is produced and no song search runs, and
otherwise the play branch resolves exactly that query. -/
theorem process_command_play_branch (c : String)
    (hw : ∀ t ∈ websiteCommands, strContains (normalize c) t.1 = false)
    (hp : pyStartsWith (normalize c) "play" = true) :
    process_command c =
      (if song_query_of (normalize c) = "" then
        ([Eff.speak "Please specify a song to play."], "continue")
      else
        match find_song (song_query_of (normalize c)) with
        | some song_url =>
          ([Eff.speak ("Playing " ++ song_query_of (normalize c)), Eff.openUrl song_url],
           "continue")
        | none =>
          ([Eff.speak ("Sorry, I couldn\x27t find " ++ song_query_of (normalize c) ++
              " in my music library."),
            Eff.speak "Let me search for it on YouTube instead.",
            Eff.openUrl ("https://www.youtube.com/results?search_query=" ++
              pyReplace (song_query_of (normalize c)) " " "+")], "continue")) := by
  have h0 : ¬ normalize c = "" := by
    intro hh; rw [hh] at hp; exact absurd hp (by decide)
  have hfw : websiteCommands.find? (fun t => strContains (normalize c) t.1) = none := by
    rw [List.find?_eq_none]; intro t ht; simp [hw t ht]
  unfold process_command
  simp only [hfw, if_neg h0, hp, if_true]

/-- Claim C2, witness: the bare command `"play"` yields the empty song query
and only the clarifying reply. -/
theorem process_command_play_branch_witness :
    process_command "play" = ([Eff.speak "Please specify a song to play."], "continue") := by
  rw [process_command_play_branch "play" (by decide) (by decide)]; decide

/-! ### Claim C3 — wake-word stripping in the dialogue loop -/

/-- Claim C3, counterexample: for the recognized text `"jarvis jarvis"` the
loop removes EVERY occurrence of `"jarvis"`, leaving the empty command and
speaking the clarifying prompt without dispatching, whereas stripping only
the leading wake token would leave the nonempty command `"jarvis"` to be
dispatched. -/
theorem wake_strip_counterexample :
    actual_command "jarvis jarvis" = "" ∧
    spec_wake_remainder "jarvis jarvis" = "jarvis" ∧
    ("" : String) ≠ "jarvis" ∧
    run_step ⟨false, 0⟩ (ListenResult.heard "jarvis jarvis") =
      (⟨false, 0⟩, [Eff.speak "Yes, how can I help you?"]) := by decide

/-- Claim C3, amended: for every recognized text beginning with `"jarvis"`,
the command passed on to classification equals the text with ALL occurrences
of `"jarvis"` removed and then trimmed (`actual_command`); when that
remainder is empty the loop speaks "Yes, how can I help you?" and does not
dispatch, and otherwise it dispatches `process_command` on the remainder. -/
theorem run_step_wake_dispatch (st : RunState) (s : String)
    (h : pyStartsWith s "jarvis" = true) :
    run_step st (ListenResult.heard s) =
      if actual_command s = "" then
        (⟨st.should_quit, 0⟩, [Eff.speak "Yes, how can I help you?"])
      else if (process_command (actual_command s)).2 = "quit" then
        (⟨true, 0⟩, (process_command (actual_command s)).1)
      else (⟨st.should_quit, 0⟩, (process_command (actual_command s)).1) := by
  unfold run_step
  by_cases hac : actual_command s = ""
  · simp [h, hac]
  · simp [h, hac]

/-- Claim C3, witness: hearing bare `"jarvis"` speaks the clarifying prompt
and dispatches nothing. -/
theorem run_step_wake_dispatch_witness :
    run_step ⟨false, 3⟩ (ListenResult.heard "jarvis") =
      (⟨false, 0⟩, [Eff.speak "Yes, how can I help you?"]) := by
  rw [run_step_wake_dispatch ⟨false, 3⟩ "jarvis" (by decide)]; decide

/-! ### Claim C4 — AskAI response post-processing -/

/-- Claim C4, counterexample: the post-processing of the assistant's own
AskAI handler (`ai_process`, Main.py line 153) maps `"**Hello** there"` to
`"Hello there"` — no period is appended — and does not collapse internal
whitespace runs. -/
theorem ai_process_postprocessing_counterexample :
    ai_clean "**Hello** there" = "Hello there" ∧
    ai_clean "**Hello** there" ≠ "Hello there." ∧
    ai_clean "a  b" = "a  b" := by decide

/-- Claim C4, amended: the described post-processing (strip markdown markers,
collapse whitespace runs to single spaces, append a period when the text does
not end in terminal punctuation) is performed by `AIClient._clean_response`
of Ai_agent_module.py — which maps `"**Hello** there"` to `"Hello there."` —
while the assistant's in-loop handler `ai_process` only strips asterisks and
trims, mapping the same response to `"Hello there"`. -/
theorem clean_response_postprocessing :
    clean_response "**Hello** there" = "Hello there." ∧
    clean_response "**Bold**  and \x60code\x60  #tag" = "Bold and code tag." ∧
    clean_response "Done!" = "Done!" ∧
    ai_clean "**Hello** there" = "Hello there" := by decide

/-! ### Claim C5 — news takes precedence over time -/

/-- Claim C5: EVERY command containing both `"news"` and `"time"` (matching
no website trigger and not starting with `"play"`) is classified by the news
sub-classification — `"general"` when no category keyword is contained — and
never reaches the time handler: the result is always a single `getNews`
effect with `"continue"`. -/
theorem news_precedes_time (c : String)
    (hw : ∀ t ∈ websiteCommands, strContains (normalize c) t.1 = false)
    (hp : pyStartsWith (normalize c) "play" = false)
    (hnews : strContains (normalize c) "news" = true)
    (_htime : strContains (normalize c) "time" = true) :
    process_command c =
      (if strContains (normalize c) "technology" || strContains (normalize c) "tech" then
        [Eff.getNews "technology"]
      else if strContains (normalize c) "sports" then [Eff.getNews "sports"]
      else if strContains (normalize c) "business" then [Eff.getNews "business"]
      else if strContains (normalize c) "entertainment" then [Eff.getNews "entertainment"]
      else [Eff.getNews "general"], "continue") := by
  have h0 : ¬ normalize c = "" := by
    intro hh; rw [hh] at hnews; exact absurd hnews (by decide)
  have hfw : websiteCommands.find? (fun t => strContains (normalize c) t.1) = none := by
    rw [List.find?_eq_none]; intro t ht; simp [hw t ht]
  unfold process_command
  simp [hfw, h0, hp, hnews]

/-- Claim C5, witness: `"news at this time"` contains no category keyword and
classifies as a general news request, not a time request. -/
theorem news_precedes_time_witness :
    process_command "news at this time" = ([Eff.getNews "general"], "continue") := by
  rw [news_precedes_time "news at this time" (by decide) (by decide) (by decide) (by decide)]
  decide

/-! ### Claim C6 — consecutive-error burst policy -/

/-- Claim C6, counterexample: the burst policy does NOT extend to unexpected
exceptions caught at the loop level.  Five back-to-back exception turns from
a fresh state end with the counter at 1 — not 0 — and nothing spoken: each
loop-level exception is raised only after the successful-recognition reset,
so the handler increments from 0 to 1 every time and its diagnostic notice
never fires. -/
theorem exception_burst_counterexample :
    run_steps ⟨false, 0⟩ (List.replicate 5 ListenResult.raised) = (⟨false, 1⟩, []) ∧
    (run_steps ⟨false, 0⟩ (List.replicate 5 ListenResult.raised)).1.consecutive_errors ≠ 0 ∧
    (run_steps ⟨false, 0⟩ (List.replicate 5 ListenResult.raised)).2 = [] := by decide

/-- Claim C6, amended: starting from a fresh loop state, four back-to-back
failed listens leave the counter at 4 with nothing spoken; the fifth reaches
`max_consecutive_errors` (5), speaks the diagnostic notice (then pauses),
resets the counter to 0, and leaves the loop running.  The policy does not
extend to unexpected exceptions caught at the loop level: such an exception
is always raised after the successful-recognition reset, so from any state
the handler leaves the counter at 1 and speaks nothing. -/
theorem error_burst_policy :
    max_consecutive_errors = 5 ∧
    run_steps ⟨false, 0⟩ (List.replicate 4 ListenResult.failed) = (⟨false, 4⟩, []) ∧
    run_steps ⟨false, 0⟩ (List.replicate 5 ListenResult.failed) =
      (⟨false, 0⟩,
       [Eff.speak "I\x27m having trouble hearing you. Please check your microphone.",
        Eff.sleepMs 2000]) ∧
    ∀ st : RunState, run_step st ListenResult.raised = (⟨st.should_quit, 1⟩, []) := by
  refine ⟨by decide, by decide, by decide, fun st => ?_⟩
  simp [run_step, max_consecutive_errors]

/-! ### Claim C7 — successful recognition resets the error counter -/

/-- Claim C7: in every loop iteration whose listen succeeds, the resulting
consecutive-error counter is 0 — whatever the previous state, whether or not
the text carries the wake token, and whatever intent it dispatches to. -/
theorem heard_resets_errors (st : RunState) (s : String) :
    (run_step st (ListenResult.heard s)).1.consecutive_errors = 0 := by
  unfold run_step
  by_cases h : pyStartsWith s "jarvis" = true
  · by_cases hac : actual_command s = ""
    · simp [h, hac]
    · by_cases hq : (process_command (actual_command s)).2 = "quit"
      · simp [h, hac, hq]
      · simp [h, hac, hq]
  · simp [h]

/-! ### Claim C8 — news success with zero articles -/

/-- Claim C8: with the API key configured, a successful news request that
returns zero articles makes `get_news` speak the "no articles" notice and
return `false`, raising nothing. -/
theorem get_news_zero_articles :
    get_news true "general" (NewsOutcome.ok []) =
      ([Eff.speak "No news articles found at the moment."], false) := by decide

/-! ### Claim C9 — unique proper-substring queries resolve to their entry -/

/-- Claim C9: whenever the normalized query is a proper substring of exactly
one canonical name (stated as: the library filtered by containment of the
query is exactly that entry, and the query differs from its name) and is
neither an exact canonical-name match nor an alias match, `find_song`
returns that entry's playback URL. -/
theorem find_song_unique_substring (q c u : String)
    (hfilter : musicLibrary.filter (fun e => strContains e.1 (normalize q)) = [(c, u)])
    (hproper : normalize q ≠ c)
    (hnoexact : ∀ e ∈ musicLibrary, e.1 ≠ normalize q)
    (hnoalias : ∀ a ∈ songAliases, normalize q ∉ a.2) :
    find_song q = some u := by
  have hmemf : (c, u) ∈ musicLibrary.filter (fun e => strContains e.1 (normalize q)) := by
    rw [hfilter]; exact List.mem_singleton.mpr rfl
  have hcu : (c, u) ∈ musicLibrary := List.mem_of_mem_filter hmemf
  have hcn : strContains c (normalize q) = true := by
    have h := List.of_mem_filter hmemf; simpa using h
  have hinfix : (normalize q).data <:+: c.data := strContains_iff.mp hcn
  have hnoRev : ∀ e ∈ musicLibrary, strContains (normalize q) e.1 = false := by
    intro e he
    cases hb : strContains (normalize q) e.1
    · rfl
    · exfalso
      have h1 : e.1.data <:+: (normalize q).data := strContains_iff.mp hb
      have h2 : e.1.data <:+: c.data := h1.trans hinfix
      have h3 : e.1 = c := canonPairwise e he (c, u) hcu h2
      have h4 : c.data <:+: (normalize q).data := by rw [← h3]; exact h1
      have h5 : (normalize q).data = c.data :=
        hinfix.eq_of_length (Nat.le_antisymm hinfix.length_le h4.length_le)
      exact hproper (string_data_inj h5)
  have hfind1 : musicLibrary.find? (fun e => e.1 == normalize q) = none := by
    rw [List.find?_eq_none]; intro e he; simpa using hnoexact e he
  have hfind2 : songAliases.find? (fun a => a.2.contains (normalize q)) = none := by
    rw [List.find?_eq_none]; intro a ha; simpa using hnoalias a ha
  have hfind3 : musicLibrary.find?
      (fun e => strContains e.1 (normalize q) || strContains (normalize q) e.1) = some (c, u) := by
    rw [find?_congr_on _ (fun e => strContains e.1 (normalize q)) musicLibrary
      (fun e he => by rw [hnoRev e he, Bool.or_false])]
    exact find?_of_filter_eq_singleton _ musicLibrary (c, u) hfilter
  unfold find_song
  simp only [hfind1, hfind2, hfind3]

/-- Claim C9, witness: `"skyf"` is a proper substring of `"skyfall"` alone
and resolves to skyfall's URL. -/
theorem find_song_unique_substring_witness :
    find_song "skyf" = some "https://open.spotify.com/track/6VObnIkLVruX4UVyxWhlqm" :=
  find_song_unique_substring "skyf" "skyfall"
    "https://open.spotify.com/track/6VObnIkLVruX4UVyxWhlqm"
    (by decide) (by decide) (by decide) (by decide)

/-! ### Claim C10 — `process_command` returns exactly "continue" or "quit" -/

/-- Claim C10: `process_command` always returns `"continue"` or `"quit"`,
and it returns `"quit"` exactly when the normalized command matched no
website trigger, did not start with `"play"`, contained none of `"news"`,
`"time"`, `"date"`, and contains one of the exit phrases — every other path,
including the empty command and the AI fallback, returns `"continue"`. -/
theorem process_command_flow (c : String) :
    ((process_command c).2 = "continue" ∨ (process_command c).2 = "quit") ∧
    ((process_command c).2 = "quit" ↔
      ((∀ t ∈ websiteCommands, strContains (normalize c) t.1 = false) ∧
       pyStartsWith (normalize c) "play" = false ∧
       strContains (normalize c) "news" = false ∧
       strContains (normalize c) "time" = false ∧
       strContains (normalize c) "date" = false ∧
       (∃ e ∈ exit_commands, strContains (normalize c) e = true))) := by
  by_cases h0 : normalize c = ""
  · have hpc : process_command c = ([], "continue") := by
      unfold process_command; simp [h0]
    rw [hpc]
    refine ⟨Or.inl rfl, ?_, ?_⟩
    · intro h; exact absurd h (by decide)
    · rintro ⟨-, -, -, -, -, e, he, hse⟩
      rw [h0] at hse
      have hf : strContains "" e = false := by fin_cases he <;> decide
      rw [hf] at hse; exact absurd hse (by decide)
  · cases hfw : websiteCommands.find? (fun t => strContains (normalize c) t.1) with
    | some t =>
      have hpc : process_command c = ([Eff.speak t.2.2, Eff.openUrl t.2.1], "continue") := by
        unfold process_command; simp [hfw, h0]
      rw [hpc]
      refine ⟨Or.inl rfl, ?_, ?_⟩
      · intro h; exact absurd (show ("continue" : String) = "quit" from h) (by decide)
      · rintro ⟨hall, -⟩
        have hmem := List.mem_of_find?_eq_some hfw
        have hsat := List.find?_some hfw
        rw [hall t hmem] at hsat
        exact absurd hsat (by decide)
    | none =>
      have hwall : ∀ t ∈ websiteCommands, strContains (normalize c) t.1 = false := by
        intro t ht
        have h := List.find?_eq_none.mp hfw t ht
        simpa using h
      by_cases hp : pyStartsWith (normalize c) "play" = true
      · have h2 : (process_command c).2 = "continue" := by
          unfold process_command
          simp only [hfw, if_neg h0, hp, if_true]
          by_cases hsq : song_query_of (normalize c) = ""
          · simp [hsq]
          · simp only [if_neg hsq]
            cases hfs : find_song (song_query_of (normalize c)) <;> simp
        refine ⟨Or.inl h2, ?_, ?_⟩
        · intro h; rw [h2] at h; exact absurd h (by decide)
        · rintro ⟨-, hpf, -⟩; rw [hp] at hpf; exact absurd hpf (by decide)
      · have hpf : pyStartsWith (normalize c) "play" = false := by
          cases hb : pyStartsWith (normalize c) "play"
          · rfl
          · exact absurd hb hp
        by_cases hnews : strContains (normalize c) "news" = true
        · have h2 : (process_command c).2 = "continue" := by
            unfold process_command
            simp [hfw, h0, hpf, hnews]
          refine ⟨Or.inl h2, ?_, ?_⟩
          · intro h; rw [h2] at h; exact absurd h (by decide)
          · rintro ⟨-, -, hnf, -⟩; rw [hnews] at hnf; exact absurd hnf (by decide)
        · have hnf : strContains (normalize c) "news" = false := by
            cases hb : strContains (normalize c) "news"
            · rfl
            · exact absurd hb hnews
          by_cases htime : strContains (normalize c) "time" = true
          · have h2 : (process_command c).2 = "continue" := by
              unfold process_command
              simp [hfw, h0, hpf, hnf, htime]
            refine ⟨Or.inl h2, ?_, ?_⟩
            · intro h; rw [h2] at h; exact absurd h (by decide)
            · rintro ⟨-, -, -, htf, -⟩; rw [htime] at htf; exact absurd htf (by decide)
          · have htf : strContains (normalize c) "time" = false := by
              cases hb : strContains (normalize c) "time"
              · rfl
              · exact absurd hb htime
            by_cases hdate : strContains (normalize c) "date" = true
            · have h2 : (process_command c).2 = "continue" := by
                unfold process_command
                simp [hfw, h0, hpf, hnf, htf, hdate]
              refine ⟨Or.inl h2, ?_, ?_⟩
              · intro h; rw [h2] at h; exact absurd h (by decide)
              · rintro ⟨-, -, -, -, hdf, -⟩; rw [hdate] at hdf; exact absurd hdf (by decide)
            · have hdf : strContains (normalize c) "date" = false := by
                cases hb : strContains (normalize c) "date"
                · rfl
                · exact absurd hb hdate
              cases hexit : exit_commands.any (fun e => strContains (normalize c) e) with
              | true =>
                have hpc : process_command c =
                    ([Eff.speak "Goodbye! Have a great day!"], "quit") := by
                  unfold process_command
                  simp [hfw, h0, hpf, hnf, htf, hdf, hexit]
                rw [hpc]
                refine ⟨Or.inr rfl, ?_, ?_⟩
                · intro _
                  refine ⟨hwall, hpf, hnf, htf, hdf, ?_⟩
                  have h := List.any_eq_true.mp hexit
                  simpa using h
                · intro _; rfl
              | false =>
                have hpc : process_command c =
                    ([Eff.speak "Let me think about that...",
                      Eff.askAI (normalize c)], "continue") := by
                  unfold process_command
                  simp [hfw, h0, hpf, hnf, htf, hdf, hexit]
                rw [hpc]
                refine ⟨Or.inl rfl, ?_, ?_⟩
                · intro h
                  exact absurd (show ("continue" : String) = "quit" from h) (by decide)
                · rintro ⟨-, -, -, -, -, e, he, hse⟩
                  have h := List.any_eq_false.mp hexit e he
                  rw [hse] at h
                  exact absurd rfl h

end Jarvis
